import Mathlib

/-!
Shallow embedding of the `shorterr` Go package (src/shorterr.go, and the
second variant of the same package in src/unnamed/part_000), together with
the fragment of the Go runtime semantics the package relies on: error
values, panic values, and panic-based control transfer with `defer`/`recover`.
-/

/-- Models a Go `error` value as observed through the `error` interface:
`errorMessage` is what `Error()` returns, and the optional cause is what
`errors.Unwrap` would yield. `errors.New msg` is `GoError.mk msg none`;
`fmt.Errorf "%s: %w" msg e` is `GoError.mk (msg ++ ": " ++ e.Error()) (some e)`. -/
inductive GoError where
  | mk : String → Option GoError → GoError

/-- Models the `Error()` method of a Go error. -/
def errorMessage : GoError → String
  | .mk s _ => s

/-- Models `errors.Unwrap` on a Go error: the wrapped cause, if any. -/
def errorUnwrap : GoError → Option GoError
  | .mk _ c => c

/-- Models `errors.New msg`: a leaf error with message `msg` and no cause. -/
def errorsNew (msg : String) : GoError := .mk msg none

/-- Models `fmt.Errorf("%s: %w", msg, e)`: a new error whose message is
`msg ++ ": " ++ e.Error()` and whose cause chain wraps `e`. -/
def errorfWrap (msg : String) (e : GoError) : GoError :=
  .mk (msg ++ ": " ++ errorMessage e) (some e)

/-- Models a Go panic value (the `any` argument of `panic`), classified by
whether its dynamic type implements the `error` interface.  This classification
is all that `shorterr.PassTo` can observe: `shortCircuitError` (resp.
`panicError` in the second variant) is declared as `type shortCircuitError
error`, a defined type whose underlying type is the interface `error`, hence
itself an interface type with method set `Error() string`.  By the Go semantics
for type assertions against an interface type, `v.(shortCircuitError)`
succeeds exactly when the dynamic type of `v` implements `error`.  Note also
that the conversion `shortCircuitError(err)` performed at the `panic` sites is
an interface-to-interface conversion and leaves the dynamic type of the value
unchanged, so a value panicked by `Check` carries no tag distinguishing it
from an error value panicked by unrelated code. -/
inductive PanicValue where
  | ofError : GoError → PanicValue
  | ofString : String → PanicValue
  | ofInt : Int → PanicValue
  | otherValue : Nat → PanicValue

/-- Outcome of executing a Go statement sequence or function: either a normal
completion with a value, or an in-flight panic carrying a panic value. -/
inductive Outcome (α : Type u) where
  | ok : α → Outcome α
  | panicked : PanicValue → Outcome α

/-- Sequencing of Go execution: a panic aborts the remaining statements. -/
def Outcome.bind {α : Type u} {β : Type v} : Outcome α → (α → Outcome β) → Outcome β
  | .ok a, f => f a
  | .panicked v, _ => .panicked v

namespace Shorterr

/-- Models the body of `PassTo(err *error)` from src/shorterr.go, run as a
deferred handler at function exit.  Input: the in-flight panic value (if any;
`recover()` returns it and stops the unwinding) and the current content of the
bound error slot.  Output: the content of the slot after the handler, and the
panic value the handler re-raises (if any).  The type assertion
`v.(shortCircuitError)` tests whether the dynamic type of `v` implements the
`error` interface (see `PanicValue`); on success the carried error is written
to the slot, otherwise `panic(v)` re-raises the value unchanged. -/
def PassTo (inflight : Option PanicValue) (slot : Option GoError) :
    Option GoError × Option PanicValue :=
  match inflight with
  | none => (slot, none)
  | some v =>
    match v with
    | .ofError e => (some e, none)
    | _ => (slot, some v)

/-- Models running a Go function `func f() (a A, err error)` whose first
statement is `defer PassTo(&err)`.  `z` is the zero value of the named result
`a` (the value it holds if the body panics before assigning it); `body` is the
outcome of the function body, returning on normal completion the named results
`(a, err)` it has set.  The deferred `PassTo` then runs: on a normal return
`recover()` yields nil and the handler does nothing; on a panic the handler
observes the in-flight value, and either converts it into the error slot
(function then returns `(z, slot)`) or re-raises it. -/
def runWithPassTo {α : Type u} (z : α) (body : Outcome (α × Option GoError)) :
    Outcome (α × Option GoError) :=
  match body with
  | .ok (a, e) =>
    match PassTo none e with
    | (slot, none) => .ok (a, slot)
    | (_, some v) => .panicked v
  | .panicked v =>
    match PassTo (some v) none with
    | (slot, none) => .ok (z, slot)
    | (_, some w) => .panicked w

/-- Models `Check(err error, msg ...string)` from src/shorterr.go: nil error
is a no-op; otherwise the variadic annotations are joined with a single space,
a non-empty joined string wraps the error via `fmt.Errorf("%s: %w", ...)`, and
the resulting error is panicked (converted to the `shortCircuitError`
interface, which does not change its dynamic type). -/
def Check (err : Option GoError) (msg : List String) : Outcome Unit :=
  match err with
  | none => .ok ()
  | some e =>
    let m := String.intercalate " " msg
    let e2 := if m.length > 0 then errorfWrap m e else e
    .panicked (.ofError e2)

/-- Models `Assert(ok bool, msg string)` from src/shorterr.go. -/
def Assert (ok : Bool) (msg : String) : Outcome Unit :=
  if ok then .ok () else .panicked (.ofError (errorsNew msg))

/-- Models `Try[A any](a A, err error) A` from src/shorterr.go. -/
def Try {α : Type u} (a : α) (err : Option GoError) : Outcome α :=
  (Check err []).bind fun _ => .ok a

/-- Models `Try2`. -/
def Try2 {α β : Type} (a : α) (b : β) (err : Option GoError) : Outcome (α × β) :=
  (Check err []).bind fun _ => .ok (a, b)

/-- Models `Try3`. -/
def Try3 {α β γ : Type} (a : α) (b : β) (c : γ) (err : Option GoError) :
    Outcome (α × β × γ) :=
  (Check err []).bind fun _ => .ok (a, b, c)

/-- Models `Try4`. -/
def Try4 {α β γ δ : Type} (a : α) (b : β) (c : γ) (d : δ) (err : Option GoError) :
    Outcome (α × β × γ × δ) :=
  (Check err []).bind fun _ => .ok (a, b, c, d)

/-- Models `Try5`. -/
def Try5 {α β γ δ ε : Type} (a : α) (b : β) (c : γ) (d : δ) (e : ε)
    (err : Option GoError) : Outcome (α × β × γ × δ × ε) :=
  (Check err []).bind fun _ => .ok (a, b, c, d, e)

/-- Models `type Result[A any] struct` from src/shorterr.go: the carrier of
one success value plus one error, as stored by `Do`.  The Go `Or` method only
reads the fields through the pointer receiver and never assigns to them, so
the carrier is faithfully modelled as an immutable value. -/
structure Result (α : Type u) where
  a : α
  err : Option GoError

/-- Models `type Result2[A, B any] struct`. -/
structure Result2 (α β : Type) where
  a : α
  b : β
  err : Option GoError

/-- Models `type Result3[A, B, C any] struct`. -/
structure Result3 (α β γ : Type) where
  a : α
  b : β
  c : γ
  err : Option GoError

/-- Models `type Result4[A, B, C, D any] struct`. -/
structure Result4 (α β γ δ : Type) where
  a : α
  b : β
  c : γ
  d : δ
  err : Option GoError

/-- Models `type Result5[A, B, C, D, E any] struct`. -/
structure Result5 (α β γ δ ε : Type) where
  a : α
  b : β
  c : γ
  d : δ
  e : ε
  err : Option GoError

/-- Models `Do[A any](a A, err error) *Result[A]`: plain struct construction,
no statement in its body can panic. -/
def Do {α : Type u} (a : α) (err : Option GoError) : Result α := ⟨a, err⟩

/-- Models `Do2`. -/
def Do2 {α β : Type} (a : α) (b : β) (err : Option GoError) : Result2 α β :=
  ⟨a, b, err⟩

/-- Models `Do3`. -/
def Do3 {α β γ : Type} (a : α) (b : β) (c : γ) (err : Option GoError) :
    Result3 α β γ :=
  ⟨a, b, c, err⟩

/-- Models `Do4`. -/
def Do4 {α β γ δ : Type} (a : α) (b : β) (c : γ) (d : δ) (err : Option GoError) :
    Result4 α β γ δ :=
  ⟨a, b, c, d, err⟩

/-- Models `Do5`. -/
def Do5 {α β γ δ ε : Type} (a : α) (b : β) (c : γ) (d : δ) (e : ε)
    (err : Option GoError) : Result5 α β γ δ ε :=
  ⟨a, b, c, d, e, err⟩

/-- Models `func (r *Result[A]) Or(msg string) A`: `Check(r.err, msg)` then
return the stored value. -/
def Result.Or {α : Type u} (r : Result α) (msg : String) : Outcome α :=
  (Check r.err [msg]).bind fun _ => .ok r.a

/-- Models `Or` on `Result2`. -/
def Result2.Or {α β : Type} (r : Result2 α β) (msg : String) : Outcome (α × β) :=
  (Check r.err [msg]).bind fun _ => .ok (r.a, r.b)

/-- Models `Or` on `Result3`. -/
def Result3.Or {α β γ : Type} (r : Result3 α β γ) (msg : String) :
    Outcome (α × β × γ) :=
  (Check r.err [msg]).bind fun _ => .ok (r.a, r.b, r.c)

/-- Models `Or` on `Result4`. -/
def Result4.Or {α β γ δ : Type} (r : Result4 α β γ δ) (msg : String) :
    Outcome (α × β × γ × δ) :=
  (Check r.err [msg]).bind fun _ => .ok (r.a, r.b, r.c, r.d)

/-- Models `Or` on `Result5`. -/
def Result5.Or {α β γ δ ε : Type} (r : Result5 α β γ δ ε) (msg : String) :
    Outcome (α × β × γ × δ × ε) :=
  (Check r.err [msg]).bind fun _ => .ok (r.a, r.b, r.c, r.d, r.e)

/-- Runs, through the `defer PassTo(&err)` boundary, a function whose body is
the statement sequence `body` followed (on the normal path) by returning the
produced value with the error slot still nil; `z` is the zero value of the
value result. -/
def runFn {α : Type u} (z : α) (body : Outcome α) : Outcome (α × Option GoError) :=
  runWithPassTo z (body.bind fun a => .ok (a, none))

end Shorterr

namespace ShorterrAlt

/-!
The second variant of the package, src/unnamed/part_000: same package clause,
with `panicError` in place of `shortCircuitError` (both are defined types whose
underlying type is the interface `error`, so the type assertion in `PassTo`
has identical semantics) and `Must..Must5` in place of `Try..Try5`.
-/

/-- Models `PassTo(err *error)` from src/unnamed/part_000 (same body as the
src/shorterr.go version, with the assertion against `panicError`). -/
def PassTo (inflight : Option PanicValue) (slot : Option GoError) :
    Option GoError × Option PanicValue :=
  match inflight with
  | none => (slot, none)
  | some v =>
    match v with
    | .ofError e => (some e, none)
    | _ => (slot, some v)

/-- Models running a function with `defer PassTo(&err)` installed, for the
src/unnamed/part_000 variant. -/
def runWithPassTo {α : Type u} (z : α) (body : Outcome (α × Option GoError)) :
    Outcome (α × Option GoError) :=
  match body with
  | .ok (a, e) =>
    match PassTo none e with
    | (slot, none) => .ok (a, slot)
    | (_, some v) => .panicked v
  | .panicked v =>
    match PassTo (some v) none with
    | (slot, none) => .ok (z, slot)
    | (_, some w) => .panicked w

/-- Models `Check` from src/unnamed/part_000 (panics a `panicError`). -/
def Check (err : Option GoError) (msg : List String) : Outcome Unit :=
  match err with
  | none => .ok ()
  | some e =>
    let m := String.intercalate " " msg
    let e2 := if m.length > 0 then errorfWrap m e else e
    .panicked (.ofError e2)

/-- Models `Assert` from src/unnamed/part_000. -/
def Assert (ok : Bool) (msg : String) : Outcome Unit :=
  if ok then .ok () else .panicked (.ofError (errorsNew msg))

/-- Models `Must[A any](a A, err error) A` from src/unnamed/part_000. -/
def Must {α : Type u} (a : α) (err : Option GoError) : Outcome α :=
  (Check err []).bind fun _ => .ok a

/-- Models `Must2`. -/
def Must2 {α β : Type} (a : α) (b : β) (err : Option GoError) : Outcome (α × β) :=
  (Check err []).bind fun _ => .ok (a, b)

/-- Models `Must3`. -/
def Must3 {α β γ : Type} (a : α) (b : β) (c : γ) (err : Option GoError) :
    Outcome (α × β × γ) :=
  (Check err []).bind fun _ => .ok (a, b, c)

/-- Models `Must4`. -/
def Must4 {α β γ δ : Type} (a : α) (b : β) (c : γ) (d : δ) (err : Option GoError) :
    Outcome (α × β × γ × δ) :=
  (Check err []).bind fun _ => .ok (a, b, c, d)

/-- Models `Must5`. -/
def Must5 {α β γ δ ε : Type} (a : α) (b : β) (c : γ) (d : δ) (e : ε)
    (err : Option GoError) : Outcome (α × β × γ × δ × ε) :=
  (Check err []).bind fun _ => .ok (a, b, c, d, e)

/-- Models `Do` from src/unnamed/part_000 (constructs `Shorterr.Result`; the
struct declarations in the two files are field-for-field identical, so the
carrier type is shared). -/
def Do {α : Type u} (a : α) (err : Option GoError) : Shorterr.Result α := ⟨a, err⟩

/-- Models `Do2` from src/unnamed/part_000. -/
def Do2 {α β : Type} (a : α) (b : β) (err : Option GoError) : Shorterr.Result2 α β :=
  ⟨a, b, err⟩

/-- Models `Do3` from src/unnamed/part_000. -/
def Do3 {α β γ : Type} (a : α) (b : β) (c : γ) (err : Option GoError) :
    Shorterr.Result3 α β γ :=
  ⟨a, b, c, err⟩

/-- Models `Do4` from src/unnamed/part_000. -/
def Do4 {α β γ δ : Type} (a : α) (b : β) (c : γ) (d : δ) (err : Option GoError) :
    Shorterr.Result4 α β γ δ :=
  ⟨a, b, c, d, err⟩

/-- Models `Do5` from src/unnamed/part_000. -/
def Do5 {α β γ δ ε : Type} (a : α) (b : β) (c : γ) (d : δ) (e : ε)
    (err : Option GoError) : Shorterr.Result5 α β γ δ ε :=
  ⟨a, b, c, d, e, err⟩

/-- Models `func (r *Result[A]) Or(msg string) A` from src/unnamed/part_000. -/
def ResultOr {α : Type u} (r : Shorterr.Result α) (msg : String) : Outcome α :=
  (Check r.err [msg]).bind fun _ => .ok r.a

/-- Models `Or` on `Result2` from src/unnamed/part_000. -/
def Result2Or {α β : Type} (r : Shorterr.Result2 α β) (msg : String) :
    Outcome (α × β) :=
  (Check r.err [msg]).bind fun _ => .ok (r.a, r.b)

/-- Models `Or` on `Result3` from src/unnamed/part_000. -/
def Result3Or {α β γ : Type} (r : Shorterr.Result3 α β γ) (msg : String) :
    Outcome (α × β × γ) :=
  (Check r.err [msg]).bind fun _ => .ok (r.a, r.b, r.c)

/-- Models `Or` on `Result4` from src/unnamed/part_000. -/
def Result4Or {α β γ δ : Type} (r : Shorterr.Result4 α β γ δ) (msg : String) :
    Outcome (α × β × γ × δ) :=
  (Check r.err [msg]).bind fun _ => .ok (r.a, r.b, r.c, r.d)

/-- Models `Or` on `Result5` from src/unnamed/part_000. -/
def Result5Or {α β γ δ ε : Type} (r : Shorterr.Result5 α β γ δ ε) (msg : String) :
    Outcome (α × β × γ × δ × ε) :=
  (Check r.err [msg]).bind fun _ => .ok (r.a, r.b, r.c, r.d, r.e)

end ShorterrAlt

/-- Sequence of `k` successive calls to `Check(nil)` (no annotations), as a
statement sequence in a function body. -/
def checkNilSeq : Nat → Outcome Unit
  | 0 => Outcome.ok ()
  | k + 1 => (Shorterr.Check none []).bind fun _ => checkNilSeq k

/-- Sequence of `k` successive calls of `Or msg` on the same carrier `r`,
collecting the returned values. -/
def orCalls {α : Type} (r : Shorterr.Result α) (msg : String) : Nat → Outcome (List α)
  | 0 => Outcome.ok []
  | k + 1 => (r.Or msg).bind fun a => (orCalls r msg k).bind fun l => Outcome.ok (a :: l)

/-- Helper: a non-empty Lean string has positive length (mirrors the Go test
`len(msg) > 0`). -/
theorem length_pos_of_ne_empty {s : String} (h : s ≠ "") : 0 < s.length := by
  cases s with
  | mk d =>
    cases d with
    | nil => exact absurd rfl h
    | cons c cs => simp [String.length]

/-- Claim C1 (code bug, evaluated at the failing input): a function installing
the boundary with `defer PassTo(&err)` whose body panics with an error value
raised by unrelated code (here `errors.New "boom"`, a value that implements the
`error` interface but was never produced by a raise primitive) does NOT see the
panic re-raised: `PassTo` captures the value into the bound error slot and the
function returns normally.  The type assertion `v.(shortCircuitError)` cannot
distinguish owned signals because `shortCircuitError` is an interface type with
the method set of `error`. -/
theorem C1_passTo_captures_unrelated_error_panic :
    Shorterr.runWithPassTo (0 : Nat)
        (Outcome.panicked (PanicValue.ofError (errorsNew "boom")))
      = Outcome.ok (0, some (errorsNew "boom")) := rfl

/-- Claim C2: `Check err msgs` is a no-op on a nil error; on a non-nil error it
never returns but panics a short-circuit signal carrying either a new error
whose message is the space-joined annotations followed by `": "` and the
original message and whose cause chain wraps the original error (when the
joined annotation string is non-empty), or the original error unchanged (when
the joined string is empty). -/
theorem C2_check_spec (msgs : List String) (e : GoError) :
    Shorterr.Check none msgs = Outcome.ok () ∧
    ∃ e2, Shorterr.Check (some e) msgs = Outcome.panicked (PanicValue.ofError e2) ∧
      ((String.intercalate " " msgs ≠ "" ∧
        errorMessage e2 = String.intercalate " " msgs ++ ": " ++ errorMessage e ∧
        errorUnwrap e2 = some e) ∨
       (String.intercalate " " msgs = "" ∧ e2 = e)) := by
  refine ⟨rfl, ?_⟩
  by_cases hm : String.intercalate " " msgs = ""
  · refine ⟨e, ?_, Or.inr ⟨hm, rfl⟩⟩
    simp only [Shorterr.Check, hm]
    rfl
  · refine ⟨errorfWrap (String.intercalate " " msgs) e, ?_, Or.inl ⟨hm, rfl, rfl⟩⟩
    simp only [Shorterr.Check]
    rw [if_pos (length_pos_of_ne_empty hm)]

/-- Claim C3: a function that installs `defer PassTo(&err)` and whose body is
`Check e` followed by the normal-path return of `a`: on a nil error it returns
`a` with a nil error; on a non-nil error it returns the zero value `z` of its
result together with the error `e` itself, unchanged. -/
theorem C3_check_through_boundary {α : Type} (z a : α) (e : GoError) :
    Shorterr.runFn z ((Shorterr.Check none []).bind fun _ => Outcome.ok a)
      = Outcome.ok (a, none) ∧
    Shorterr.runFn z ((Shorterr.Check (some e) []).bind fun _ => Outcome.ok a)
      = Outcome.ok (z, some e) := ⟨rfl, rfl⟩

/-- Claim C4 (counterexample): with the empty annotation string, `Do v err`
followed by `.Or ""` produces, through the boundary, a function-level error
whose message is the original message `"boom"`, not
`"" ++ ": " ++ "boom" = ": boom"` as the claim instance demands: `Check` only
wraps when the joined annotation string is non-empty. -/
theorem C4_counterexample :
    Shorterr.runFn (0 : Nat) ((Shorterr.Do (0 : Nat) (some (errorsNew "boom"))).Or "")
      = Outcome.ok (0, some (errorsNew "boom")) ∧
    errorMessage (errorsNew "boom") ≠ "" ++ ": " ++ errorMessage (errorsNew "boom") :=
  ⟨rfl, by decide⟩

/-- Claim C4 (amended): for every arity 1..5, every tuple of values, every
non-nil error and every NON-EMPTY message `msg`, `Do... values (some e)`
followed by `.Or msg` short-circuits, and the function-level error produced
through the boundary has message `msg ++ ": " ++ errorMessage e` (with empty
`msg` the error instead passes through unchanged, see the counterexample). -/
theorem C4_do_or_message {α β γ δ ε : Type} (msg : String) (h : msg ≠ "")
    (e : GoError) (za a : α) (zb b : β) (zc c : γ) (zd d : δ) (ze e5 : ε) :
    ∃ w, errorMessage w = msg ++ ": " ++ errorMessage e ∧
      Shorterr.runFn za ((Shorterr.Do a (some e)).Or msg)
        = Outcome.ok (za, some w) ∧
      Shorterr.runFn (za, zb) ((Shorterr.Do2 a b (some e)).Or msg)
        = Outcome.ok ((za, zb), some w) ∧
      Shorterr.runFn (za, zb, zc) ((Shorterr.Do3 a b c (some e)).Or msg)
        = Outcome.ok ((za, zb, zc), some w) ∧
      Shorterr.runFn (za, zb, zc, zd) ((Shorterr.Do4 a b c d (some e)).Or msg)
        = Outcome.ok ((za, zb, zc, zd), some w) ∧
      Shorterr.runFn (za, zb, zc, zd, ze) ((Shorterr.Do5 a b c d e5 (some e)).Or msg)
        = Outcome.ok ((za, zb, zc, zd, ze), some w) := by
  have hc : Shorterr.Check (some e) [msg]
      = Outcome.panicked (PanicValue.ofError (errorfWrap msg e)) := by
    have hm : String.intercalate " " [msg] = msg := rfl
    simp only [Shorterr.Check, hm]
    rw [if_pos (length_pos_of_ne_empty h)]
  refine ⟨errorfWrap msg e, rfl, ?_, ?_, ?_, ?_, ?_⟩
  · have hor : (Shorterr.Do a (some e)).Or msg
        = Outcome.panicked (PanicValue.ofError (errorfWrap msg e)) := by
      show (Shorterr.Check (some e) [msg]).bind _ = _
      rw [hc]
      rfl
    rw [hor]
    rfl
  · have hor : (Shorterr.Do2 a b (some e)).Or msg
        = Outcome.panicked (PanicValue.ofError (errorfWrap msg e)) := by
      show (Shorterr.Check (some e) [msg]).bind _ = _
      rw [hc]
      rfl
    rw [hor]
    rfl
  · have hor : (Shorterr.Do3 a b c (some e)).Or msg
        = Outcome.panicked (PanicValue.ofError (errorfWrap msg e)) := by
      show (Shorterr.Check (some e) [msg]).bind _ = _
      rw [hc]
      rfl
    rw [hor]
    rfl
  · have hor : (Shorterr.Do4 a b c d (some e)).Or msg
        = Outcome.panicked (PanicValue.ofError (errorfWrap msg e)) := by
      show (Shorterr.Check (some e) [msg]).bind _ = _
      rw [hc]
      rfl
    rw [hor]
    rfl
  · have hor : (Shorterr.Do5 a b c d e5 (some e)).Or msg
        = Outcome.panicked (PanicValue.ofError (errorfWrap msg e)) := by
      show (Shorterr.Check (some e) [msg]).bind _ = _
      rw [hc]
      rfl
    rw [hor]
    rfl

/-- Witness for claim C4 (amended), at the message `"x"`, the error
`errors.New "boom"`, and concrete natural-number values. -/
theorem C4_do_or_message_witness :
    ("x" : String) ≠ "" ∧
    ∃ w, errorMessage w = "x" ++ ": " ++ errorMessage (errorsNew "boom") ∧
      Shorterr.runFn (0 : Nat) ((Shorterr.Do (1 : Nat) (some (errorsNew "boom"))).Or "x")
        = Outcome.ok (0, some w) ∧
      Shorterr.runFn ((0 : Nat), (0 : Nat))
          ((Shorterr.Do2 (1 : Nat) (2 : Nat) (some (errorsNew "boom"))).Or "x")
        = Outcome.ok ((0, 0), some w) ∧
      Shorterr.runFn ((0 : Nat), (0 : Nat), (0 : Nat))
          ((Shorterr.Do3 (1 : Nat) (2 : Nat) (3 : Nat) (some (errorsNew "boom"))).Or "x")
        = Outcome.ok ((0, 0, 0), some w) ∧
      Shorterr.runFn ((0 : Nat), (0 : Nat), (0 : Nat), (0 : Nat))
          ((Shorterr.Do4 (1 : Nat) (2 : Nat) (3 : Nat) (4 : Nat)
            (some (errorsNew "boom"))).Or "x")
        = Outcome.ok ((0, 0, 0, 0), some w) ∧
      Shorterr.runFn ((0 : Nat), (0 : Nat), (0 : Nat), (0 : Nat), (0 : Nat))
          ((Shorterr.Do5 (1 : Nat) (2 : Nat) (3 : Nat) (4 : Nat) (5 : Nat)
            (some (errorsNew "boom"))).Or "x")
        = Outcome.ok ((0, 0, 0, 0, 0), some w) :=
  ⟨by decide,
   C4_do_or_message "x" (by decide) (errorsNew "boom") 0 1 0 2 0 3 0 4 0 5⟩

/-- Claim C5: for every arity 1..5, `Try..Try5` applied to success values and a
nil error returns exactly those values unchanged, in order. -/
theorem C5_try_nil_passthrough {α β γ δ ε : Type} (a : α) (b : β) (c : γ)
    (d : δ) (e5 : ε) :
    Shorterr.Try a none = Outcome.ok a ∧
    Shorterr.Try2 a b none = Outcome.ok (a, b) ∧
    Shorterr.Try3 a b c none = Outcome.ok (a, b, c) ∧
    Shorterr.Try4 a b c d none = Outcome.ok (a, b, c, d) ∧
    Shorterr.Try5 a b c d e5 none = Outcome.ok (a, b, c, d, e5) :=
  ⟨rfl, rfl, rfl, rfl, rfl⟩

/-- Claim C6: inside a function with the boundary installed, `Assert false msg`
short-circuits and the function-level error message is exactly `msg`, while
`Assert true msg` returns normally and the function completes with its normal
value and a nil error output. -/
theorem C6_assert_boundary {α : Type} (msg : String) (z a : α) :
    (∃ w, Shorterr.runFn z ((Shorterr.Assert false msg).bind fun _ => Outcome.ok a)
        = Outcome.ok (z, some w) ∧ errorMessage w = msg) ∧
    Shorterr.Assert true msg = Outcome.ok () ∧
    Shorterr.runFn z ((Shorterr.Assert true msg).bind fun _ => Outcome.ok a)
      = Outcome.ok (a, none) :=
  ⟨⟨errorsNew msg, rfl, rfl⟩, rfl, rfl⟩

/-- Claim C7: any number `k` of successive `Check nil` calls never raises a
short-circuit signal, and a function running such a sequence before its normal
return is observationally equal to one doing nothing: it returns its normal
value with a nil error output. -/
theorem C7_check_nil_idempotent {α : Type} (k : Nat) (z a : α) :
    checkNilSeq k = Outcome.ok () ∧
    Shorterr.runFn z ((checkNilSeq k).bind fun _ => Outcome.ok a)
      = Outcome.ok (a, none) := by
  have h1 : checkNilSeq k = Outcome.ok () := by
    induction k with
    | zero => rfl
    | succ n ih => exact ih
  refine ⟨h1, ?_⟩
  rw [h1]
  rfl

/-- Claim C8: for every arity 1..5, `Do..Do5` is pure construction: it returns
normally for a nil as well as a non-nil error (its codomain in this embedding
is the plain carrier type, mirroring that its Go body is a single composite
literal with no panicking statement), and the returned carrier stores exactly
the given values and error, as given. -/
theorem C8_do_pure_construction {α β γ δ ε : Type} (a : α) (b : β) (c : γ)
    (d : δ) (e5 : ε) (err : Option GoError) :
    (Shorterr.Do a err).a = a ∧ (Shorterr.Do a err).err = err ∧
    (Shorterr.Do2 a b err).a = a ∧ (Shorterr.Do2 a b err).b = b ∧
    (Shorterr.Do2 a b err).err = err ∧
    (Shorterr.Do3 a b c err).a = a ∧ (Shorterr.Do3 a b c err).b = b ∧
    (Shorterr.Do3 a b c err).c = c ∧ (Shorterr.Do3 a b c err).err = err ∧
    (Shorterr.Do4 a b c d err).a = a ∧ (Shorterr.Do4 a b c d err).b = b ∧
    (Shorterr.Do4 a b c d err).c = c ∧ (Shorterr.Do4 a b c d err).d = d ∧
    (Shorterr.Do4 a b c d err).err = err ∧
    (Shorterr.Do5 a b c d e5 err).a = a ∧ (Shorterr.Do5 a b c d e5 err).b = b ∧
    (Shorterr.Do5 a b c d e5 err).c = c ∧ (Shorterr.Do5 a b c d e5 err).d = d ∧
    (Shorterr.Do5 a b c d e5 err).e = e5 ∧ (Shorterr.Do5 a b c d e5 err).err = err :=
  ⟨rfl, rfl, rfl, rfl, rfl, rfl, rfl, rfl, rfl, rfl,
   rfl, rfl, rfl, rfl, rfl, rfl, rfl, rfl, rfl, rfl⟩

/-- Claim C9: the two source variants (src/shorterr.go and
src/unnamed/part_000) are behaviorally equivalent: `PassTo`, the boundary run,
`Check`, `Assert`, `Must..Must5` versus `Try..Try5`, `Do..Do5` and the `Or`
methods are pairwise extensionally equal on every input. -/
theorem C9_variants_equivalent {α β γ δ ε : Type} (a : α) (b : β) (c : γ)
    (d : δ) (e5 : ε) (err : Option GoError) (msgs : List String) (msg : String)
    (ok : Bool) (inflight : Option PanicValue) (slot : Option GoError)
    (z : α) (body : Outcome (α × Option GoError))
    (r1 : Shorterr.Result α) (r2 : Shorterr.Result2 α β)
    (r3 : Shorterr.Result3 α β γ) (r4 : Shorterr.Result4 α β γ δ)
    (r5 : Shorterr.Result5 α β γ δ ε) :
    ShorterrAlt.PassTo inflight slot = Shorterr.PassTo inflight slot ∧
    ShorterrAlt.runWithPassTo z body = Shorterr.runWithPassTo z body ∧
    ShorterrAlt.Check err msgs = Shorterr.Check err msgs ∧
    ShorterrAlt.Assert ok msg = Shorterr.Assert ok msg ∧
    ShorterrAlt.Must a err = Shorterr.Try a err ∧
    ShorterrAlt.Must2 a b err = Shorterr.Try2 a b err ∧
    ShorterrAlt.Must3 a b c err = Shorterr.Try3 a b c err ∧
    ShorterrAlt.Must4 a b c d err = Shorterr.Try4 a b c d err ∧
    ShorterrAlt.Must5 a b c d e5 err = Shorterr.Try5 a b c d e5 err ∧
    ShorterrAlt.Do a err = Shorterr.Do a err ∧
    ShorterrAlt.Do2 a b err = Shorterr.Do2 a b err ∧
    ShorterrAlt.Do3 a b c err = Shorterr.Do3 a b c err ∧
    ShorterrAlt.Do4 a b c d err = Shorterr.Do4 a b c d err ∧
    ShorterrAlt.Do5 a b c d e5 err = Shorterr.Do5 a b c d e5 err ∧
    ShorterrAlt.ResultOr r1 msg = r1.Or msg ∧
    ShorterrAlt.Result2Or r2 msg = r2.Or msg ∧
    ShorterrAlt.Result3Or r3 msg = r3.Or msg ∧
    ShorterrAlt.Result4Or r4 msg = r4.Or msg ∧
    ShorterrAlt.Result5Or r5 msg = r5.Or msg :=
  ⟨rfl, rfl, rfl, rfl, rfl, rfl, rfl, rfl, rfl, rfl,
   rfl, rfl, rfl, rfl, rfl, rfl, rfl, rfl, rfl⟩

/-- Claim C10: a carrier built by `Do` with a nil error stores exactly the
given value and nil error, and calling `Or msg` on it any number `k` of times
is permitted: every call returns the same stored value without raising a
signal, and the carrier (a pure value whose Go `Or` method only reads its
fields) is never modified after construction. -/
theorem C10_or_repeatable {α : Type} (a : α) (msg : String) (k : Nat) :
    Shorterr.Do a none = ⟨a, none⟩ ∧
    (Shorterr.Do a none).Or msg = Outcome.ok a ∧
    orCalls (Shorterr.Do a none) msg k = Outcome.ok (List.replicate k a) := by
  have h1 : (Shorterr.Do a none).Or msg = Outcome.ok a := rfl
  refine ⟨rfl, h1, ?_⟩
  induction k with
  | zero => rfl
  | succ n ih => simp [orCalls, h1, ih, Outcome.bind, List.replicate_succ]
